import Mathlib

/-!
Verification development for the snip727-v2 repository.

Shallow embedding of the event-ingestion and signal-aggregation pipeline:
* `src/src/snip727/services/strategy.py`  (StrategyService)
* `src/src/snip727/services/sentiment.py` (SentimentAnalyzer)
* `src/src/snip727/web3/client.py`        (AsyncWeb3Client)
* `src/src/snip727/web3/monitor.py`       (UniswapMonitor)

Python floats are modelled as `Rat`, timestamps as `Rat` (seconds),
block numbers as `Int`.  Database queries are modelled as pure reads over an
explicit list of rows; the sqlalchemy session, logging and exception
swallowing around whole functions are not modelled.  JSON
serialisation round-trips (`json.dumps`/`json.loads`) are modelled as the
identity on the serialised string.
-/

namespace Snip727

/-! ### Strategy service embedding (`services/strategy.py`) -/

/-- Python `str.lower()` (structurally recursive rendering of
`String.toLower`). -/
def strToLower (s : String) : String := ⟨s.data.map Char.toLower⟩

/-- Python `not text or not text.strip()`: the text is empty or
whitespace-only. -/
def isBlank (s : String) : Bool := s.data.all Char.isWhitespace

/-- Relevant fields of `core/config.py::Settings` (defaults from the
source; `sentiment_threshold = 0.6`). -/
structure Settings where
  strategy_signals_required : Nat := 3
  sentiment_threshold : Rat := mkRat 6 10
  new_pool_blocks_threshold : Int := 15
deriving DecidableEq

def defaultSettings : Settings := {}

/-- A row of the `StrategySignal` table as read by `StrategyService`. -/
structure StrategySignal where
  pool_address : String
  signal_type : String
  signal_value : Rat
  created_at : Rat
  block_number : Option Int
  expires_at : Option Rat
  is_active : Bool
deriving DecidableEq

/-- The per-type data stored in the `signals` dict of `_get_pool_signals`. -/
structure SigData where
  value : Rat
  created_at : Rat
  block_number : Option Int
deriving DecidableEq

/-- `signal.expires_at and signal.expires_at < datetime.utcnow()` (Python
truthiness: `None` is falsy). -/
def expiredB (o : Option Rat) (now : Rat) : Bool :=
  match o with
  | some e => decide (e < now)
  | none => false

/-- `signal.signal_type in ['new_pool', 'liquidity_spike', 'whale_buy']`. -/
def timeSensitiveType (t : String) : Bool :=
  t == "new_pool" || t == "liquidity_spike" || t == "whale_buy"

/-- `signal.block_number and current_block - signal.block_number > threshold`
(Python truthiness: a block number of `0` or `None` is falsy). -/
def blockStaleB (s : Settings) (o : Option Int) (currentBlock : Int) : Bool :=
  match o with
  | some b => decide (b ≠ 0) && decide (s.new_pool_blocks_threshold < currentBlock - b)
  | none => false

/-- `StrategyService._is_signal_valid`. -/
def isSignalValid (s : Settings) (sig : StrategySignal) (currentBlock : Int)
    (now : Rat) : Bool :=
  if expiredB sig.expires_at now then false
  else if timeSensitiveType sig.signal_type && blockStaleB s sig.block_number currentBlock then
    false
  else true

/-- Python dict assignment `d[k] = v`: replace the value if the key is
present (keeping its position), else append the new key. -/
def dictInsert (k : String) (v : SigData) :
    List (String × SigData) → List (String × SigData)
  | [] => [(k, v)]
  | (k', v') :: rest => if k' = k then (k, v) :: rest else (k', v') :: dictInsert k v rest

/-- Python dict lookup `d.get(k)`. -/
def dictGet (l : List (String × SigData)) (k : String) : Option SigData :=
  (l.find? (fun p => p.1 == k)).map (·.2)

/-- The sentiment gate of `_get_pool_signals`:
`sentiment_score and sentiment_score >= self.settings.sentiment_threshold`
(Python truthiness: `None` and `0.0` are falsy). -/
def sentimentFlag (s : Settings) (sentiment : Option Rat) : Bool :=
  match sentiment with
  | some sc => decide (sc ≠ 0) && decide (s.sentiment_threshold ≤ sc)
  | none => false

/-- The loop body of `_get_pool_signals`: add the dict entry for a signal
when `_is_signal_valid` accepts it. -/
def insertValid (s : Settings) (currentBlock : Int) (now : Rat)
    (acc : List (String × SigData)) (sig : StrategySignal) :
    List (String × SigData) :=
  if isSignalValid s sig currentBlock now then
    dictInsert sig.signal_type ⟨sig.signal_value, sig.created_at, sig.block_number⟩ acc
  else acc

/-- `StrategyService._get_pool_signals`: the `signals` dict keyed by
`signal_type`, built from the active rows for the pool that pass
`_is_signal_valid`, plus a `'sentiment'` entry when
`sentiment_score and sentiment_score >= self.settings.sentiment_threshold`.
The database read and `sentiment_analyzer.get_pool_sentiment` result are
passed in explicitly. -/
def getPoolSignals (s : Settings) (db : List StrategySignal) (pool : String)
    (sentiment : Option Rat) (currentBlock : Int) (now : Rat) :
    List (String × SigData) :=
  let active := db.filter (fun sig => sig.pool_address == strToLower pool && sig.is_active)
  let base := active.foldl (insertValid s currentBlock now) []
  if sentimentFlag s sentiment then
    dictInsert "sentiment" ⟨sentiment.getD 0, now, some currentBlock⟩ base
  else base

/-- Signal weights of `_calculate_alert_score` (`signal_weights.get(t, 0.1)`). -/
def signalWeight (t : String) : Rat :=
  if t = "new_pool" then mkRat 3 10
  else if t = "liquidity_spike" then mkRat 1 4
  else if t = "whale_buy" then mkRat 1 4
  else if t = "sentiment" then mkRat 1 5
  else mkRat 1 10

/-- Per-signal value normalisation of `_calculate_alert_score`
(`max(0, v)` for sentiment, else `min(1.0, v/100.0) if v else 0.5`). -/
def signalScoreValue (t : String) (v : Rat) : Rat :=
  if t = "sentiment" then max 0 v
  else if v ≠ 0 then min 1 (v / 100) else 1/2

/-- `StrategyService._calculate_alert_score`. -/
def calculateAlertScore (signals : List (String × SigData)) : Rat :=
  min 1 (signals.foldl (fun acc p => acc + signalWeight p.1 * signalScoreValue p.1 p.2.value) 0)

/-- The dict returned by `StrategyService._get_pool_info` (when the pool row
exists). -/
structure PoolInfo where
  address : String
  token0 : String
  token1 : String
  version : String
  fee : Option Int
  created_at : Rat
deriving DecidableEq

/-- The `Alert` row written by `StrategyService._save_alert`, together with
the alert score computed by `_generate_alert` (the formatted message text is
not modelled). -/
structure AlertRecord where
  pool_address : String
  alert_type : String
  signal_count : Nat
  score : Rat
  sentiment_score : Option Rat
deriving DecidableEq

/-- `StrategyService._generate_alert`: returns without doing anything when
`_get_pool_info` finds no pool; otherwise saves an `Alert` row and invokes
every registered callback.  Nothing in it writes to the `StrategySignal`
table. -/
def generateAlert (pool : String) (poolInfo : Option PoolInfo)
    (signals : List (String × SigData)) : Option AlertRecord :=
  match poolInfo with
  | none => none
  | some _ =>
      some { pool_address := strToLower pool
             alert_type := "strategy_signal"
             signal_count := signals.length
             score := calculateAlertScore signals
             sentiment_score := (dictGet signals "sentiment").map (·.value) }

/-- `StrategyService._evaluate_pool`: fires `_generate_alert` exactly when
`len(signals) >= self.settings.strategy_signals_required`, where `signals`
is the per-type dict of `_get_pool_signals`. -/
def evaluatePool (s : Settings) (db : List StrategySignal) (pool : String)
    (poolInfo : Option PoolInfo) (sentiment : Option Rat) (currentBlock : Int)
    (now : Rat) : Option AlertRecord :=
  let signals := getPoolSignals s db pool sentiment currentBlock now
  if s.strategy_signals_required ≤ signals.length then
    generateAlert pool poolInfo signals
  else none

/-- One evaluation round of `_continuous_evaluation` for one pool, as a
transformer of the `StrategySignal` table: `_evaluate_pool` and
`_generate_alert` only read the table (the alert goes to the separate
`Alert` table and the callbacks), so the table after evaluation is the
table before it — the source contains no statement updating or deleting
`StrategySignal` rows. -/
def evaluatePoolStep (s : Settings) (db : List StrategySignal) (pool : String)
    (poolInfo : Option PoolInfo) (sentiment : Option Rat) (currentBlock : Int)
    (now : Rat) : List StrategySignal × Option AlertRecord :=
  (db, evaluatePool s db pool poolInfo sentiment currentBlock now)

/-- `for callback in self.alert_callbacks: await callback(...)` — every
registered callback is invoked exactly once when an alert is generated,
none otherwise. -/
def callbackInvocations (nCallbacks : Nat) (r : Option AlertRecord) : Nat :=
  match r with
  | some _ => nCallbacks
  | none => 0

/-- The valid active signals for a pool: the rows `_get_pool_signals`
iterates over that pass `_is_signal_valid`. -/
def validSignals (s : Settings) (db : List StrategySignal) (pool : String)
    (currentBlock : Int) (now : Rat) : List StrategySignal :=
  (db.filter (fun sig => sig.pool_address == strToLower pool && sig.is_active)).filter
    (fun sig => isSignalValid s sig currentBlock now)

/-- The signal types of the valid active signals for a pool, with
multiplicity. -/
def validTypes (s : Settings) (db : List StrategySignal) (pool : String)
    (currentBlock : Int) (now : Rat) : List String :=
  (validSignals s db pool currentBlock now).map (·.signal_type)

/-- How many valid active signals of one type the pool has. -/
def typeCount (s : Settings) (db : List StrategySignal) (pool : String)
    (currentBlock : Int) (now : Rat) (t : String) : Nat :=
  (validSignals s db pool currentBlock now).countP (fun sig => sig.signal_type == t)

/-- The multiset of signal types present for the pool (valid signal types
plus the synthetic `'sentiment'` type when the sentiment gate passes); the
key set of the `signals` dict is exactly the set of these. -/
def presentTypes (s : Settings) (db : List StrategySignal) (pool : String)
    (sentiment : Option Rat) (currentBlock : Int) (now : Rat) : List String :=
  if sentimentFlag s sentiment then
    validTypes s db pool currentBlock now ++ ["sentiment"]
  else validTypes s db pool currentBlock now

/-! ### Sentiment analyzer embedding (`services/sentiment.py`) -/

/-- The DeepPavlov call result, as destructured by `analyze_text`:
`labels` is `result[0]` and `probsCols` is `result[1]` when
`len(result) > 1`.  The embedded model function returns `none` for a falsy
(empty) `result` list. -/
structure DpOut where
  labels : List String
  probsCols : Option (List (List Rat))

/-- Which branch of `analyze_text` produced the return value. -/
inductive SentPath where
  | empty      -- the `not text or not text.strip()` early return
  | modelUsed  -- the DeepPavlov branch returned a pair
  | modelNone  -- the DeepPavlov branch fell through (Python returns `None`)
  | fallback   -- `_simple_sentiment_analysis`
deriving DecidableEq

def positiveWords : List String :=
  ["хорошо", "отлично", "супер", "круто", "good", "great", "awesome", "🚀", "🔥", "💎", "🦍"]

def negativeWords : List String :=
  ["плохо", "ужасно", "мусор", "scam", "bad", "terrible", "💩", "🚩"]

/-- Python substring containment `needle in hay` (for non-empty needles). -/
def strContains (hay needle : String) : Bool :=
  (hay.splitOn needle).length != 1

/-- `SentimentAnalyzer._simple_sentiment_analysis`. -/
def simpleSentimentAnalysis (text : String) : Rat × Rat :=
  let textLower := text.toLower
  let positiveCount := positiveWords.countP (fun w => strContains textLower w)
  let negativeCount := negativeWords.countP (fun w => strContains textLower w)
  if negativeCount < positiveCount then
    (min (8/10) (3/10 + ((positiveCount - negativeCount : Nat) : Rat) * (1/10)), 6/10)
  else if positiveCount < negativeCount then
    (max (-(8/10)) (-(3/10) - ((negativeCount - positiveCount : Nat) : Rat) * (1/10)), 6/10)
  else (0, 4/10)

/-- `sentiment_label = result[0][0] if result[0] else "neutral"`. -/
def extractLabel (o : DpOut) : String := o.labels.headD "neutral"

/-- `probs = result[1][0] if len(result) > 1 and result[1] else [0.33, 0.33, 0.34]`. -/
def extractProbs (o : DpOut) : List Rat :=
  match o.probsCols with
  | some (p :: _) => p
  | _ => [33/100, 33/100, 34/100]

/-- Python `max(probs)` on a non-empty list. -/
def maxProbs : List Rat → Option Rat
  | [] => none
  | h :: t => some (t.foldl max h)

/-- The score/confidence computation of the DeepPavlov branch of
`analyze_text`. -/
def modelScoreConf (o : DpOut) : Rat × Rat :=
  let label := extractLabel o
  let probs := extractProbs o
  let score :=
    if label = "positive" then probs.headD (1/2)
    else if label = "negative" then -(probs.getD 1 (1/2))
    else 0
  let conf := (maxProbs probs).getD (1/2)
  (score, conf)

/-- `SentimentAnalyzer.analyze_text`.  The model attribute is `none` when
DeepPavlov failed to load (fallback mode); when present it is the model as
a function from the text to its (possibly empty, i.e. `none`) result.  The
first component is the returned pair — `none` models the implicit `None`
Python returns when the model branch produces a falsy result; the second
component records which branch ran. -/
def analyzeText (model : Option (String → Option DpOut)) (text : String) :
    Option (Rat × Rat) × SentPath :=
  if isBlank text then (some (0, 0), SentPath.empty)
  else
    match model with
    | some m =>
      match m text with
      | some out => (some (modelScoreConf out), SentPath.modelUsed)
      | none => (none, SentPath.modelNone)
    | none => (some (simpleSentimentAnalysis text), SentPath.fallback)

/-! ### Web3 client embedding (`web3/client.py`) -/

/-- A `get_logs` filter (`fromBlock`/`toBlock`/`address`/`topics`). -/
structure LogFilter where
  address : String
  topics : List String
  fromBlock : Int
  toBlock : Int
deriving DecidableEq

/-- The RPC environment: per-endpoint connectivity (`w3.is_connected()`)
and per-endpoint responses; `none` models a raised exception. -/
structure RpcEnv where
  isConnected : String → Bool
  blockNumber : String → Option Int
  logsFor : String → LogFilter → Option (List Nat)

/-- One Redis key with its value and absolute expiry (`setex`). -/
structure RedisEntry where
  key : String
  value : String
  expiresAt : Rat
deriving DecidableEq

/-- Redis `GET`: an entry past its expiry behaves as absent. -/
def redisGet (r : List RedisEntry) (now : Rat) (k : String) : Option String :=
  match r.find? (fun e => e.key == k) with
  | some e => if now < e.expiresAt then some e.value else none
  | none => none

/-- Redis `SETEX key ttl value`. -/
def redisSetex (r : List RedisEntry) (now : Rat) (k : String) (ttl : Rat)
    (v : String) : List RedisEntry :=
  ⟨k, v, now + ttl⟩ :: r.filter (fun e => e.key != k)

/-- The mutable state of `AsyncWeb3Client`: endpoint list, rotation index,
the connected provider (`w3`, by URL) and the Redis connection. -/
structure ClientState where
  rpcUrls : List String
  currentRpcIndex : Nat
  w3 : Option String
  redis : Option (List RedisEntry)
deriving DecidableEq

/-- The index sequence `(current_rpc_index + i) % len(rpc_urls)` for
`i in range(len(rpc_urls))` tried by `_connect_to_rpc`. -/
def rotation (n start : Nat) : List Nat :=
  (List.range n).map (fun i => (start + i) % n)

/-- The first index in the given order whose endpoint answers
`is_connected()`. -/
def firstConnected (env : RpcEnv) (urls : List String) : List Nat → Option Nat
  | [] => none
  | j :: rest =>
    if env.isConnected (urls.getD j "") then some j
    else firstConnected env urls rest

/-- The indices actually probed by the `_connect_to_rpc` loop: every index
in order up to and including the first that connects (all of them when none
does). -/
def triedEndpoints (env : RpcEnv) (urls : List String) : List Nat → List Nat
  | [] => []
  | j :: rest =>
    if env.isConnected (urls.getD j "") then [j]
    else j :: triedEndpoints env urls rest

/-- `AsyncWeb3Client._connect_to_rpc`: walk the rotation, set `w3` and
`current_rpc_index` on the first endpoint whose `is_connected()` probe
succeeds; raise `ConnectionError` (here `none`) after the whole rotation
fails.  Also returns the list of probed endpoint indices. -/
def connectToRpc (env : RpcEnv) (st : ClientState) :
    Option ClientState × List Nat :=
  match firstConnected env st.rpcUrls (rotation st.rpcUrls.length st.currentRpcIndex) with
  | some j =>
      (some { st with currentRpcIndex := j, w3 := some (st.rpcUrls.getD j "") },
       triedEndpoints env st.rpcUrls (rotation st.rpcUrls.length st.currentRpcIndex))
  | none =>
      (none, triedEndpoints env st.rpcUrls (rotation st.rpcUrls.length st.currentRpcIndex))

/-- Result of one client call: the returned value (`none` = a raised
exception propagated to the caller), the client state afterwards, the
endpoint indices probed by reconnection attempts, and the endpoints that
were sent an actual RPC request. -/
structure CallResult (α : Type) where
  result : Option α
  state : ClientState
  probed : List Nat
  called : List String
deriving DecidableEq

/-- The `try: return self.w3.eth.block_number / except: reconnect and
retry once` body of `get_latest_block_number`, on a client whose `w3` is
set. -/
def blockNumberOn (env : RpcEnv) (st : ClientState) : CallResult Int :=
  match st.w3 with
  | none => ⟨none, st, [], []⟩
  | some u =>
    match env.blockNumber u with
    | some n => ⟨some n, st, [], [u]⟩
    | none =>
      match connectToRpc env st with
      | (some st', tried) =>
          match st'.w3 with
          | some u' =>
            (match env.blockNumber u' with
             | some n => ⟨some n, st', tried, [u, u']⟩
             | none => ⟨none, st', tried, [u, u']⟩)
          | none => ⟨none, st', tried, [u]⟩
      | (none, tried) => ⟨none, st, tried, [u]⟩

/-- `AsyncWeb3Client.get_latest_block_number`: connect first when `w3` is
unset, then the try/except body.  No cache is consulted or written. -/
def getLatestBlockNumber (env : RpcEnv) (st : ClientState) : CallResult Int :=
  match st.w3 with
  | some _ => blockNumberOn env st
  | none =>
    match connectToRpc env st with
    | (some st', tried) =>
        let r := blockNumberOn env st'
        ⟨r.result, r.state, tried ++ r.probed, r.called⟩
    | (none, tried) => ⟨none, st, tried, []⟩

/-- `AsyncWeb3Client.get_logs`: connect when `w3` is unset, then
`self.w3.eth.get_logs(**kwargs)`; any exception is logged and re-raised —
there is no range check and no failover retry. -/
def getLogs (env : RpcEnv) (st : ClientState) (f : LogFilter) :
    CallResult (List Nat) :=
  match st.w3 with
  | some u =>
    (match env.logsFor u f with
     | some ls => ⟨some ls, st, [], [u]⟩
     | none => ⟨none, st, [], [u]⟩)
  | none =>
    match connectToRpc env st with
    | (some st', tried) =>
        match st'.w3 with
        | some u =>
          (match env.logsFor u f with
           | some ls => ⟨some ls, st', tried, [u]⟩
           | none => ⟨none, st', tried, [u]⟩)
        | none => ⟨none, st', tried, []⟩
    | (none, tried) => ⟨none, st, tried, []⟩

/-- `AsyncWeb3Client.get_cached_abi`: `None` without a Redis connection;
otherwise a Redis `GET` on `"abi:" + address` (the JSON round-trip is the
identity on the stored string); on a miss the fetch is unimplemented and
`None` is returned. -/
def getCachedAbi (st : ClientState) (now : Rat) (addr : String) : Option String :=
  match st.redis with
  | none => none
  | some r => redisGet r now ("abi:" ++ addr)

/-- `AsyncWeb3Client.cache_abi`: Redis `SETEX "abi:" + address 86400 abi`. -/
def cacheAbi (st : ClientState) (now : Rat) (addr : String) (abi : String) :
    ClientState :=
  match st.redis with
  | none => st
  | some r => { st with redis := some (redisSetex r now ("abi:" ++ addr) 86400 abi) }

/-! ### Uniswap monitor embedding (`web3/monitor.py`) -/

/-- `monitor.PoolEvent` (the `data` dict is kept abstract per event kind). -/
structure PoolEventE where
  event_type : String
  pool_address : String
  token0 : String
  token1 : String
  block_number : Int
  transaction_hash : String
deriving DecidableEq

/-- The decoded arguments of a V2 `PairCreated` log, as produced by
`process_log` in `_handle_v2_pair_created`. -/
structure V2PairCreated where
  pair : String
  token0 : String
  token1 : String
  allPairsLength : Nat
  blockNumber : Int
  txHash : String
deriving DecidableEq

/-- The decoded arguments of a V3 `PoolCreated` log. -/
structure V3PoolCreated where
  pool : String
  token0 : String
  token1 : String
  fee : Int
  tickSpacing : Int
  blockNumber : Int
  txHash : String
deriving DecidableEq

/-- The monitor state touched by the creation handlers: the
`monitored_pools` set and the stream of events handed to `on_event`. -/
structure MonitorState where
  monitoredPools : Finset String
  emitted : List PoolEventE
deriving DecidableEq

/-- `UniswapMonitor._handle_v2_pair_created` (after decoding):
`self.monitored_pools.add(decoded.args.pair)` then
`await self.on_event(pool_event)` — unconditionally, with no
already-registered check and no returned flag. -/
def handleV2PairCreated (d : V2PairCreated) (st : MonitorState) : MonitorState :=
  { monitoredPools := insert d.pair st.monitoredPools
    emitted := st.emitted ++
      [⟨"v2_pair_created", d.pair, d.token0, d.token1, d.blockNumber, d.txHash⟩] }

/-- `UniswapMonitor._handle_v3_pool_created` (after decoding). -/
def handleV3PoolCreated (d : V3PoolCreated) (st : MonitorState) : MonitorState :=
  { monitoredPools := insert d.pool st.monitoredPools
    emitted := st.emitted ++
      [⟨"v3_pool_created", d.pool, d.token0, d.token1, d.blockNumber, d.txHash⟩] }

/-! ### Concrete inputs used by counterexamples and witnesses -/

/-- Three valid active signals of three distinct types for one pool, each
type with count 1 (blocks 990–992, evaluated at block 1000, within the
15-block validity threshold). -/
def sigNewPool : StrategySignal :=
  ⟨"0xpool", "new_pool", 1, 100, some 990, none, true⟩

def sigLiqSpike : StrategySignal :=
  ⟨"0xpool", "liquidity_spike", 10, 130, some 991, none, true⟩

def sigWhaleBuy : StrategySignal :=
  ⟨"0xpool", "whale_buy", 5, 160, some 992, none, true⟩

def dbDistinct : List StrategySignal := [sigNewPool, sigLiqSpike, sigWhaleBuy]

/-- A `liquidity_spike` signal with confidence value 0.8. -/
def liqSig (t : Rat) (b : Int) : StrategySignal :=
  ⟨"0xpool", "liquidity_spike", mkRat 8 10, t, some b, none, true⟩

/-- Three `liquidity_spike` signals (confidence 0.8 each) arriving within
5 minutes (timestamps 100, 160, 220 s). -/
def dbThreeLiq : List StrategySignal := [liqSig 100 990, liqSig 160 991, liqSig 220 992]

def poolInfoX : Option PoolInfo :=
  some ⟨"0xpool", "0xtoken000000", "0xtoken111111", "v2", none, 50⟩

/-- An RPC environment where every endpoint is connected and answers block
number 12345. -/
def envTwoCalls : RpcEnv := ⟨fun _ => true, fun _ => some 12345, fun _ _ => some []⟩

/-- An RPC environment whose `get_logs` always answers `[7]`. -/
def envLogsOk : RpcEnv := ⟨fun _ => true, fun _ => some 1, fun _ _ => some [7]⟩

/-- A client connected to endpoint "A" with an empty Redis cache. -/
def stConnectedA : ClientState := ⟨["A", "B", "C"], 0, some "A", some []⟩

/-- A log filter spanning one million blocks. -/
def hugeFilter : LogFilter := ⟨"0xfactory", [], 0, 1000000⟩

/-- An environment where only endpoint "b" is connectable. -/
def envConnB : RpcEnv := ⟨fun u => u == "b", fun _ => none, fun _ _ => none⟩

/-- An unconnected two-endpoint client. -/
def stAB : ClientState := ⟨["a", "b"], 0, none, none⟩

/-- The state `_connect_to_rpc` reaches from `stAB` under `envConnB`. -/
def stAB' : ClientState := ⟨["a", "b"], 1, some "b", none⟩

/-- An environment where "A" is down (probe fails, calls raise) and "B" is
live, answering block number 42. -/
def envBLive : RpcEnv :=
  ⟨fun u => u == "B", fun u => if u == "B" then some 42 else none, fun _ _ => none⟩

/-- The failover scenario start state: endpoints `[A, B, C]`, rotation
index at A, connected to A. -/
def stScenario9 : ClientState := ⟨["A", "B", "C"], 0, some "A", none⟩

/-- A decoded V2 `PairCreated` event. -/
def pairEvt : V2PairCreated := ⟨"0xpair", "0xt0", "0xt1", 5, 12345, "0xtx"⟩

/-- The empty monitor state. -/
def monSt0 : MonitorState := ⟨∅, []⟩

/-! ### Lemmas about the signal dict of `_get_pool_signals` -/

/-- The key list of the signals dict. -/
def keys (l : List (String × SigData)) : List String := l.map Prod.fst

theorem mem_keys_dictInsert {t k : String} {v : SigData} :
    ∀ {l : List (String × SigData)},
      t ∈ keys (dictInsert k v l) ↔ t = k ∨ t ∈ keys l := by
  intro l
  induction l with
  | nil => simp [dictInsert, keys]
  | cons hd tl ih =>
    obtain ⟨k', v'⟩ := hd
    by_cases hk : k' = k
    · subst hk
      simp [dictInsert, keys]
    · simp only [dictInsert, if_neg hk, keys, List.map_cons, List.mem_cons]
      rw [show (List.map Prod.fst (dictInsert k v tl)) = keys (dictInsert k v tl) from rfl, ih]
      simp only [keys]
      tauto

theorem nodup_keys_dictInsert {k : String} {v : SigData} :
    ∀ {l : List (String × SigData)}, (keys l).Nodup → (keys (dictInsert k v l)).Nodup := by
  intro l
  induction l with
  | nil => simp [dictInsert, keys]
  | cons hd tl ih =>
    obtain ⟨k', v'⟩ := hd
    intro h
    simp only [keys, List.map_cons, List.nodup_cons] at h
    by_cases hk : k' = k
    · subst hk
      simpa [dictInsert, keys, List.nodup_cons] using h
    · simp only [dictInsert, if_neg hk, keys, List.map_cons, List.nodup_cons]
      refine ⟨?_, ih h.2⟩
      rw [show (List.map Prod.fst (dictInsert k v tl)) = keys (dictInsert k v tl) from rfl,
        mem_keys_dictInsert]
      rintro (rfl | hmem)
      · exact hk rfl
      · exact h.1 hmem

theorem mem_keys_foldl_insertValid (s : Settings) (cb : Int) (now : Rat) :
    ∀ (sigs : List StrategySignal) (acc : List (String × SigData)) (t : String),
      t ∈ keys (sigs.foldl (insertValid s cb now) acc) ↔
        t ∈ keys acc ∨
          t ∈ (sigs.filter (fun sig => isSignalValid s sig cb now)).map (·.signal_type) := by
  intro sigs
  induction sigs with
  | nil => simp
  | cons sig rest ih =>
    intro acc t
    rw [List.foldl_cons, ih, List.filter_cons]
    by_cases hv : isSignalValid s sig cb now = true
    · rw [if_pos hv]
      simp only [insertValid, if_pos hv, List.map_cons, List.mem_cons]
      rw [mem_keys_dictInsert]
      tauto
    · rw [if_neg hv]
      simp only [insertValid, if_neg hv]

theorem nodup_keys_foldl_insertValid (s : Settings) (cb : Int) (now : Rat) :
    ∀ (sigs : List StrategySignal) (acc : List (String × SigData)),
      (keys acc).Nodup → (keys (sigs.foldl (insertValid s cb now) acc)).Nodup := by
  intro sigs
  induction sigs with
  | nil => intro acc h; simpa using h
  | cons sig rest ih =>
    intro acc h
    rw [List.foldl_cons]
    refine ih _ ?_
    by_cases hv : isSignalValid s sig cb now
    · simpa only [insertValid, if_pos hv] using nodup_keys_dictInsert h
    · simpa only [insertValid, if_neg hv] using h

theorem mem_keys_getPoolSignals (s : Settings) (db : List StrategySignal)
    (pool : String) (sentiment : Option Rat) (cb : Int) (now : Rat) (t : String) :
    t ∈ keys (getPoolSignals s db pool sentiment cb now) ↔
      t ∈ presentTypes s db pool sentiment cb now := by
  simp only [getPoolSignals, presentTypes, validTypes, validSignals]
  by_cases hsc : sentimentFlag s sentiment = true
  · rw [if_pos hsc, if_pos hsc, mem_keys_dictInsert, mem_keys_foldl_insertValid]
    simp only [keys, List.map_nil, List.not_mem_nil, false_or, List.mem_append,
      List.mem_singleton]
    tauto
  · rw [if_neg hsc, if_neg hsc, mem_keys_foldl_insertValid]
    simp [keys]

theorem nodup_keys_getPoolSignals (s : Settings) (db : List StrategySignal)
    (pool : String) (sentiment : Option Rat) (cb : Int) (now : Rat) :
    (keys (getPoolSignals s db pool sentiment cb now)).Nodup := by
  simp only [getPoolSignals]
  by_cases hsc : sentimentFlag s sentiment = true
  · rw [if_pos hsc]
    exact nodup_keys_dictInsert (nodup_keys_foldl_insertValid s cb now _ [] (by simp [keys]))
  · rw [if_neg hsc]
    exact nodup_keys_foldl_insertValid s cb now _ [] (by simp [keys])

/-- The size of the `signals` dict of `_get_pool_signals` is exactly the
number of distinct signal types present for the pool. -/
theorem getPoolSignals_length (s : Settings) (db : List StrategySignal)
    (pool : String) (sentiment : Option Rat) (cb : Int) (now : Rat) :
    (getPoolSignals s db pool sentiment cb now).length
      = (presentTypes s db pool sentiment cb now).dedup.length := by
  have hperm : List.Perm (keys (getPoolSignals s db pool sentiment cb now))
      ((presentTypes s db pool sentiment cb now).dedup) := by
    rw [List.perm_ext_iff_of_nodup (nodup_keys_getPoolSignals s db pool sentiment cb now)
      (List.nodup_dedup _)]
    intro a
    rw [List.mem_dedup]
    exact mem_keys_getPoolSignals s db pool sentiment cb now a
  have hlen : (keys (getPoolSignals s db pool sentiment cb now)).length
      = (getPoolSignals s db pool sentiment cb now).length := by
    simp [keys]
  rw [← hlen, hperm.length_eq]

/-! ### Claim C1 -/

/-- C1 counterexample: three valid active signals of three *distinct*
types — each signal type has count 1, far below the threshold
`strategy_signals_required = 3` — nevertheless make `_evaluate_pool` take
the alert path, because `_evaluate_pool` compares the threshold against the
size of the per-type dict (the number of distinct types), not against any
per-type count.  This falsifies the claim that signals of distinct types
each below count N cannot jointly trigger an alert. -/
theorem c1_counterexample :
    typeCount defaultSettings dbDistinct "0xpool" 1000 400 "new_pool" = 1 ∧
    typeCount defaultSettings dbDistinct "0xpool" 1000 400 "liquidity_spike" = 1 ∧
    typeCount defaultSettings dbDistinct "0xpool" 1000 400 "whale_buy" = 1 ∧
    typeCount defaultSettings dbDistinct "0xpool" 1000 400 "sentiment" = 0 ∧
    (1 : Nat) < defaultSettings.strategy_signals_required ∧
    (evaluatePool defaultSettings dbDistinct "0xpool" poolInfoX none 1000 400).isSome
      = true := by
  decide

/-- C1 (amended): the strategy's alert path for a pool is never taken when
the number of *distinct* signal types with a currently-valid active signal
(counting the synthetic sentiment type when the sentiment gate passes) is
below `strategy_signals_required`: no `Alert` record is created and no
alert callback is invoked.  (The original per-type-count reading is false:
see the counterexample.) -/
theorem c1_no_alert_below_distinct_type_threshold (s : Settings)
    (db : List StrategySignal) (pool : String) (poolInfo : Option PoolInfo)
    (sentiment : Option Rat) (cb : Int) (now : Rat) (nCallbacks : Nat)
    (h : (presentTypes s db pool sentiment cb now).dedup.length
          < s.strategy_signals_required) :
    evaluatePool s db pool poolInfo sentiment cb now = none ∧
    callbackInvocations nCallbacks
      (evaluatePool s db pool poolInfo sentiment cb now) = 0 := by
  have hlen := getPoolSignals_length s db pool sentiment cb now
  have hnone : evaluatePool s db pool poolInfo sentiment cb now = none := by
    unfold evaluatePool
    rw [if_neg]
    omega
  exact ⟨hnone, by rw [hnone]; rfl⟩

/-- C1 witness: a pool with a single valid signal type (two `new_pool`
signals collapse to one dict entry) produces no alert and no callback
invocation. -/
theorem c1_witness :
    evaluatePool defaultSettings [sigNewPool] "0xpool" poolInfoX none 1000 400 = none ∧
    callbackInvocations 2
      (evaluatePool defaultSettings [sigNewPool] "0xpool" poolInfoX none 1000 400) = 0 :=
  c1_no_alert_below_distinct_type_threshold defaultSettings [sigNewPool] "0xpool"
    poolInfoX none 1000 400 2 (by decide)

/-! ### Claim C2 -/

/-- C2 counterexample: after the alert fires on `dbDistinct`, the pool's
signal history is *not* empty — it is exactly the same (non-empty, still
active) list of rows — and a subsequent evaluation 10 seconds later (the
`_continuous_evaluation` interval) over the very same signal instances
fires a second alert. -/
theorem c2_counterexample :
    (evaluatePoolStep defaultSettings dbDistinct "0xpool" poolInfoX none 1000 400).2.isSome
      = true ∧
    (evaluatePoolStep defaultSettings dbDistinct "0xpool" poolInfoX none 1000 400).1
      = dbDistinct ∧
    dbDistinct ≠ [] ∧
    (∀ sig ∈ (evaluatePoolStep defaultSettings dbDistinct "0xpool" poolInfoX none
        1000 400).1, sig.is_active = true) ∧
    (evaluatePoolStep defaultSettings
      (evaluatePoolStep defaultSettings dbDistinct "0xpool" poolInfoX none 1000 400).1
      "0xpool" poolInfoX none 1000 410).2.isSome = true := by
  decide

/-- C2 (amended): evaluation never clears or deactivates the pool's
signals — `_evaluate_pool`/`_generate_alert` only read the
`StrategySignal` table (the source contains no update or delete of it), so
the signal history after an evaluation equals the history before it, and
whenever an evaluation fires an alert, re-evaluating the resulting
(unchanged) history under the same conditions fires again.  Signals stop
counting only by `expires_at`/block-age invalidation, not by any
clearing-on-alert step. -/
theorem c2_no_clearing_history_unchanged (s : Settings) (db : List StrategySignal)
    (pool : String) (poolInfo : Option PoolInfo) (sentiment : Option Rat)
    (cb : Int) (now : Rat) :
    (evaluatePoolStep s db pool poolInfo sentiment cb now).1 = db ∧
    ((evaluatePoolStep s db pool poolInfo sentiment cb now).2.isSome = true →
      (evaluatePoolStep s (evaluatePoolStep s db pool poolInfo sentiment cb now).1
        pool poolInfo sentiment cb now).2.isSome = true) :=
  ⟨rfl, fun h => h⟩

/-- C2 witness: the refire implication instantiated on the concrete
three-distinct-type history. -/
theorem c2_witness :
    (evaluatePoolStep defaultSettings dbDistinct "0xpool" poolInfoX none 1000 401).1
      = dbDistinct ∧
    (evaluatePoolStep defaultSettings
      (evaluatePoolStep defaultSettings dbDistinct "0xpool" poolInfoX none 1000 401).1
      "0xpool" poolInfoX none 1000 401).2.isSome = true := by
  have h := c2_no_clearing_history_unchanged defaultSettings dbDistinct "0xpool"
    poolInfoX none 1000 401
  exact ⟨h.1, h.2 (by decide)⟩

/-! ### Claim C3 -/

/-- C3: evaluation of the code at the claim's input.  Three
`liquidity_spike` signals with confidence 0.8 each, within 5 minutes, no
sentiment data: the type's count is 3 (meeting the claimed threshold), yet
`_evaluate_pool` produces **no** alert, because the three same-type
signals collapse into a single entry of the per-type `signals` dict
(`signals[signal.signal_type] = ...`), giving `len(signals) = 1 < 3`; no
`overallConfidence = min(0.95, avg + 0.3*sentiment)` computation exists in
the source.  The repository's own tests
(`tests/test_strategy.py::test_check_for_alerts_sufficient_signals`,
`tests/test_integration.py::test_full_signal_pipeline`) assert that this
input must fire exactly one alert with `signal_count == 3`. -/
theorem c3_three_same_type_signals_fire_no_alert :
    typeCount defaultSettings dbThreeLiq "0xpool" 1000 400 "liquidity_spike" = 3 ∧
    (∀ sig ∈ dbThreeLiq, sig.signal_value = mkRat 8 10) ∧
    (getPoolSignals defaultSettings dbThreeLiq "0xpool" none 1000 400).length = 1 ∧
    evaluatePool defaultSettings dbThreeLiq "0xpool" poolInfoX none 1000 400 = none := by
  decide

/-! ### Claim C4 -/

/-- C4 counterexample: a pool whose winning type `liquidity_spike` has
count 3 (reaching the vote threshold) and whose sentiment score 0.9
satisfies `|0.9| ≥ sentiment_threshold = 0.6` — by the claim, the alert
must fire — yet `_evaluate_pool` fires nothing: the dict holds only the
two entries `liquidity_spike` and `sentiment`, and 2 < 3.  Neither a
`|sentimentScore| ≥ threshold` disjunct nor an
`overallConfidence ≥ 0.8` disjunct exists in the source. -/
theorem c4_counterexample :
    typeCount defaultSettings dbThreeLiq "0xpool" 1000 400 "liquidity_spike" = 3 ∧
    defaultSettings.strategy_signals_required ≤ 3 ∧
    defaultSettings.sentiment_threshold ≤ |mkRat 9 10| ∧
    evaluatePool defaultSettings dbThreeLiq "0xpool" poolInfoX (some (mkRat 9 10)) 1000 400
      = none := by
  decide

/-- C4 (amended): the alert fires if and only if the pool row exists and
the number of distinct signal types with a currently-valid active signal —
counting the synthetic sentiment type exactly when
`sentiment_score and sentiment_score >= sentiment_threshold` (no absolute
value, positive scores only) — reaches `strategy_signals_required`.  There
is no `overallConfidence ≥ 0.8` alternative and sentiment is not an
independent override; it is merely one more countable type. -/
theorem c4_alert_gate_iff (s : Settings) (db : List StrategySignal) (pool : String)
    (poolInfo : Option PoolInfo) (sentiment : Option Rat) (cb : Int) (now : Rat) :
    (evaluatePool s db pool poolInfo sentiment cb now).isSome = true ↔
      (poolInfo.isSome = true ∧
       s.strategy_signals_required
         ≤ (presentTypes s db pool sentiment cb now).dedup.length) := by
  have hlen := getPoolSignals_length s db pool sentiment cb now
  unfold evaluatePool
  by_cases hth : s.strategy_signals_required
      ≤ (getPoolSignals s db pool sentiment cb now).length
  · rw [if_pos hth]
    cases poolInfo with
    | none => simp [generateAlert]
    | some pi => simp [generateAlert]; omega
  · rw [if_neg hth]
    simp only [Option.isSome_none, Bool.false_eq_true, false_iff]
    rintro ⟨-, hge⟩
    omega

/-- C4 witness: on the three-distinct-type history with no sentiment, the
gate equivalence yields a fired alert. -/
theorem c4_witness :
    (evaluatePool defaultSettings dbDistinct "0xpool" poolInfoX none 1000 402).isSome
      = true :=
  (c4_alert_gate_iff defaultSettings dbDistinct "0xpool" poolInfoX none 1000 402).mpr
    ⟨by decide, by decide⟩

/-! ### Claim C5 -/

/-- C5 counterexample: two back-to-back `get_latest_block_number` calls —
the second reading the very signature the first one just "stored", well
inside any claimed TTL — both send an RPC request: no block-number cache
entry exists (the first call stores nothing and the second consults
nothing), contradicting the claimed per-signature round-trip law with
~10 s / ~60 s TTLs. -/
theorem c5_counterexample :
    (getLatestBlockNumber envTwoCalls stConnectedA).result = some 12345 ∧
    (getLatestBlockNumber envTwoCalls stConnectedA).called = ["A"] ∧
    (getLatestBlockNumber envTwoCalls
      (getLatestBlockNumber envTwoCalls stConnectedA).state).called = ["A"] := by
  refine ⟨rfl, rfl, rfl⟩

/-- C5 (amended): the only cache is the Redis ABI cache with a fixed
24-hour (86400 s) TTL: after `cache_abi` stores an ABI, `get_cached_abi`
on the same address strictly before the expiry returns the identical
value without any RPC traffic (on a miss the fetch is unimplemented and
`None` is returned).  Block-number reads are never cached: every
`get_latest_block_number` call on a connected client that answers sends
exactly one RPC request, and log queries likewise always reach the RPC. -/
theorem c5_only_abi_cached (st : ClientState) (r : List RedisEntry)
    (now t : Rat) (addr abi : String)
    (hr : st.redis = some r) (h2 : t < now + 86400) :
    getCachedAbi (cacheAbi st now addr abi) t addr = some abi ∧
    (∀ env u n, st.w3 = some u → env.blockNumber u = some n →
      (getLatestBlockNumber env st).called = [u]) := by
  constructor
  · unfold cacheAbi
    rw [hr]
    unfold getCachedAbi redisGet redisSetex
    simp only
    rw [List.find?_cons_of_pos _ (by simp)]
    simp [h2]
  · intro env u n hw hn
    unfold getLatestBlockNumber blockNumberOn
    rw [hw]
    simp only [hn]

/-- C5 witness: storing an ABI at time 0 and reading it back at time 10
returns it unchanged, while a block-number read on the same client sends
an RPC request. -/
theorem c5_witness :
    getCachedAbi (cacheAbi stConnectedA 0 "0xc" "[]") 10 "0xc" = some "[]" ∧
    (getLatestBlockNumber envTwoCalls stConnectedA).called = ["A"] := by
  have h := c5_only_abi_cached stConnectedA [] 0 10 "0xc" "[]" rfl (by norm_num)
  exact ⟨h.1, h.2 envTwoCalls "A" 12345 rfl rfl⟩

/-! ### Claim C6 -/

/-- C6 counterexample: a log query spanning one million blocks — beyond
any configured maximum — is forwarded to the RPC (one request is sent)
and returns the provider's answer; no `RangeTooLarge` rejection exists
(`get_logs` performs no range check at all, and no maximum block range is
configured anywhere). -/
theorem c6_counterexample :
    hugeFilter.toBlock - hugeFilter.fromBlock = 1000000 ∧
    (getLogs envLogsOk stConnectedA hugeFilter).result = some [7] ∧
    (getLogs envLogsOk stConnectedA hugeFilter).called = ["A"] := by
  refine ⟨rfl, rfl, rfl⟩

/-- C6 (amended): `get_logs` on a connected client forwards *every*
filter, regardless of its block-range size, in exactly one RPC request
whose answer (or raised error) is returned unchanged; no range bound is
enforced and no `RangeTooLarge` error exists. -/
theorem c6_getLogs_forwards_any_range (env : RpcEnv) (st : ClientState)
    (f : LogFilter) (u : String) (h : st.w3 = some u) :
    getLogs env st f = ⟨env.logsFor u f, st, [], [u]⟩ := by
  unfold getLogs
  rw [h]
  cases hf : env.logsFor u f <;> simp [hf]

/-- C6 witness: the forwarding law applied to the million-block filter. -/
theorem c6_witness :
    getLogs envLogsOk stConnectedA hugeFilter = ⟨some [7], stConnectedA, [], ["A"]⟩ :=
  c6_getLogs_forwards_any_range envLogsOk stConnectedA hugeFilter "A" rfl

/-! ### Claim C7 -/

/-- C7 counterexample: processing the same V2 `PairCreated` event twice
leaves a single entry in `monitored_pools` (set semantics), but the event
callback — the path that synthesises the `new_pool` signal — runs both
times, so a second event for the same address *is* emitted; the handler
also returns nothing, so there is no `created = false` no-op signal. -/
theorem c7_counterexample :
    (handleV2PairCreated pairEvt (handleV2PairCreated pairEvt monSt0)).monitoredPools
      = {"0xpair"} ∧
    (handleV2PairCreated pairEvt (handleV2PairCreated pairEvt monSt0)).emitted
      = [⟨"v2_pair_created", "0xpair", "0xt0", "0xt1", 12345, "0xtx"⟩,
         ⟨"v2_pair_created", "0xpair", "0xt0", "0xt1", 12345, "0xtx"⟩] := by
  refine ⟨by decide, rfl⟩

/-- C7 (amended): registration into `monitored_pools` is idempotent — a
second processing of the same creation event leaves the set unchanged
with the one address — but each processing unconditionally invokes the
`on_event` callback, so a duplicate pool-created event (hence a duplicate
`new_pool` signal downstream) is emitted on reprocessing; no boolean
no-op result exists.  The same holds for the V3 handler. -/
theorem c7_register_idempotent_event_duplicated (d : V2PairCreated)
    (e : V3PoolCreated) (st st' : MonitorState) :
    (handleV2PairCreated d (handleV2PairCreated d st)).monitoredPools
      = (handleV2PairCreated d st).monitoredPools ∧
    (handleV2PairCreated d (handleV2PairCreated d st)).emitted.length
      = st.emitted.length + 2 ∧
    (handleV3PoolCreated e (handleV3PoolCreated e st')).monitoredPools
      = (handleV3PoolCreated e st').monitoredPools ∧
    (handleV3PoolCreated e (handleV3PoolCreated e st')).emitted.length
      = st'.emitted.length + 2 := by
  refine ⟨?_, ?_, ?_, ?_⟩ <;>
    simp [handleV2PairCreated, handleV3PoolCreated, Finset.insert_idem]

/-! ### Lemmas about the `_connect_to_rpc` rotation -/

theorem rotation_nodup (n start : Nat) : (rotation n start).Nodup := by
  unfold rotation
  refine (List.nodup_range n).map_on ?_
  intro i hi j hj hmod
  simp only [List.mem_range] at hi hj
  have h2 : i % n = j % n := Nat.ModEq.add_left_cancel' start hmod
  rwa [Nat.mod_eq_of_lt hi, Nat.mod_eq_of_lt hj] at h2

theorem rotation_mem_lt {n start j : Nat} (h : j ∈ rotation n start) : j < n := by
  unfold rotation at h
  obtain ⟨i, hi, rfl⟩ := List.mem_map.mp h
  simp only [List.mem_range] at hi
  exact Nat.mod_lt _ (by omega)

theorem mem_rotation {n start j : Nat} (h : j < n) : j ∈ rotation n start := by
  have hn : 0 < n := by omega
  unfold rotation
  refine List.mem_map.mpr ⟨(n - start % n + j) % n, List.mem_range.mpr (Nat.mod_lt _ hn), ?_⟩
  have key : (start + (n - start % n + j)) % n = j := by
    have hdm := Nat.div_add_mod start n
    have h1 : start % n < n := Nat.mod_lt _ hn
    conv_lhs =>
      rw [show start + (n - start % n + j) = n * (start / n) + (n + j) by omega]
    rw [Nat.add_comm (n * (start / n)) (n + j), Nat.add_mul_mod_self_left,
      Nat.add_comm n j, Nat.add_mod_right]
    exact Nat.mod_eq_of_lt h
  rw [Nat.add_mod_mod, key]

theorem triedEndpoints_prefix (env : RpcEnv) (urls : List String) :
    ∀ l : List Nat, triedEndpoints env urls l <+: l := by
  intro l
  induction l with
  | nil => simp [triedEndpoints]
  | cons j rest ih =>
    by_cases hc : env.isConnected (urls.getD j "") = true
    · simp only [triedEndpoints, if_pos hc]
      exact ⟨rest, rfl⟩
    · simp only [triedEndpoints, if_neg hc]
      obtain ⟨t, ht⟩ := ih
      exact ⟨t, by rw [List.cons_append, ht]⟩

theorem firstConnected_eq_none_iff (env : RpcEnv) (urls : List String) :
    ∀ l : List Nat, firstConnected env urls l = none ↔
      ∀ j ∈ l, env.isConnected (urls.getD j "") = false := by
  intro l
  induction l with
  | nil => simp [firstConnected]
  | cons j rest ih =>
    by_cases hc : env.isConnected (urls.getD j "") = true
    · simp only [firstConnected, if_pos hc, List.forall_mem_cons]
      constructor
      · intro h; exact absurd h (by simp)
      · rintro ⟨hf, -⟩; rw [hc] at hf; cases hf
    · have hc' : env.isConnected (urls.getD j "") = false := by
        revert hc; cases env.isConnected (urls.getD j "") <;> simp
      simp only [firstConnected, hc', Bool.false_eq_true, if_false, List.forall_mem_cons]
      rw [ih]
      simp

theorem firstConnected_some (env : RpcEnv) (urls : List String) :
    ∀ (l : List Nat) (j : Nat), firstConnected env urls l = some j →
      j ∈ l ∧ env.isConnected (urls.getD j "") = true := by
  intro l
  induction l with
  | nil => intro j h; simp [firstConnected] at h
  | cons i rest ih =>
    intro j h
    by_cases hc : env.isConnected (urls.getD i "") = true
    · simp only [firstConnected, if_pos hc, Option.some.injEq] at h
      subst h
      exact ⟨List.mem_cons_self i rest, hc⟩
    · simp only [firstConnected, if_neg hc] at h
      obtain ⟨hmem, hconn⟩ := ih j h
      exact ⟨List.mem_cons_of_mem i hmem, hconn⟩

/-! ### Claim C8 -/

/-- C8: `_connect_to_rpc` probes each configured endpoint at most once per
rotation (the probed index list has no duplicates), in round-robin order
starting from the current index (the probed list is a prefix of the
rotation `[(idx+0)%n, (idx+1)%n, …]`); it raises the connection failure if
and only if every configured endpoint fails its probe in this rotation —
so it succeeds whenever some endpoint is connectable — and on success the
client is connected to the probed endpoint that succeeded, with the
rotation index updated to it. -/
theorem c8_connect_round_robin_exhaustive (env : RpcEnv) (st : ClientState) :
    (connectToRpc env st).2.Nodup ∧
    (connectToRpc env st).2 <+: rotation st.rpcUrls.length st.currentRpcIndex ∧
    ((connectToRpc env st).1 = none ↔
      ∀ j < st.rpcUrls.length, env.isConnected (st.rpcUrls.getD j "") = false) ∧
    (∀ st', (connectToRpc env st).1 = some st' →
      env.isConnected (st.rpcUrls.getD st'.currentRpcIndex "") = true ∧
      st'.w3 = some (st.rpcUrls.getD st'.currentRpcIndex "") ∧
      st'.rpcUrls = st.rpcUrls) := by
  have hpre : triedEndpoints env st.rpcUrls (rotation st.rpcUrls.length st.currentRpcIndex)
      <+: rotation st.rpcUrls.length st.currentRpcIndex :=
    triedEndpoints_prefix env st.rpcUrls _
  have hnd : (triedEndpoints env st.rpcUrls
      (rotation st.rpcUrls.length st.currentRpcIndex)).Nodup :=
    (rotation_nodup _ _).sublist hpre.sublist
  cases hfc : firstConnected env st.rpcUrls
      (rotation st.rpcUrls.length st.currentRpcIndex) with
  | none =>
    have hconn : connectToRpc env st
        = (none, triedEndpoints env st.rpcUrls
            (rotation st.rpcUrls.length st.currentRpcIndex)) := by
      unfold connectToRpc
      rw [hfc]
    rw [hconn]
    refine ⟨hnd, hpre, ?_, ?_⟩
    · constructor
      · intro _ j hj
        exact (firstConnected_eq_none_iff env st.rpcUrls _).mp hfc j (mem_rotation hj)
      · intro _
        rfl
    · intro st' h
      exact absurd h (by simp)
  | some j =>
    have hj := firstConnected_some env st.rpcUrls _ j hfc
    have hconn : connectToRpc env st
        = (some { st with currentRpcIndex := j, w3 := some (st.rpcUrls.getD j "") },
           triedEndpoints env st.rpcUrls
             (rotation st.rpcUrls.length st.currentRpcIndex)) := by
      unfold connectToRpc
      rw [hfc]
    rw [hconn]
    refine ⟨hnd, hpre, ?_, ?_⟩
    · constructor
      · intro h
        exact absurd h (by simp)
      · intro hall
        exact absurd hj.2 (by rw [hall j (rotation_mem_lt hj.1)]; simp)
    · intro st' h
      have hst : st' = { st with currentRpcIndex := j, w3 := some (st.rpcUrls.getD j "") } := by
        simpa using h.symm
      subst hst
      exact ⟨hj.2, rfl, rfl⟩

/-- C8 witness: with only endpoint "b" connectable, connection succeeds at
index 1 after probing `[0, 1]` (no duplicates), and the failure
characterisation instantiates concretely. -/
theorem c8_witness :
    (connectToRpc envConnB stAB).2.Nodup ∧
    ¬((connectToRpc envConnB stAB).1 = none) ∧
    envConnB.isConnected (stAB.rpcUrls.getD stAB'.currentRpcIndex "") = true ∧
    stAB'.w3 = some "b" := by
  have h := c8_connect_round_robin_exhaustive envConnB stAB
  have hsome : (connectToRpc envConnB stAB).1 = some stAB' := by decide
  refine ⟨h.1, ?_, (h.2.2.2 stAB' hsome).1, (h.2.2.2 stAB' hsome).2.1⟩
  rw [hsome]
  simp

/-! ### Claim C9 -/

/-- C9: deterministic, sticky failover.  With endpoints `[A, B, C]`, the
rotation index at A and the client connected to A, if the call on A fails
while B is live, `get_latest_block_number` reconnects to B (the rotation
index becomes 1 and `w3` becomes B) and returns B's answer; the next call
reaches B directly — it probes nothing and sends its one RPC request to B
only, never retrying A — because the rotation index was updated to the
succeeding endpoint. -/
theorem c9_failover_advances_and_sticks (env : RpcEnv) (n : Int)
    (hA : env.isConnected "A" = false) (hAb : env.blockNumber "A" = none)
    (hB : env.isConnected "B" = true) (hBn : env.blockNumber "B" = some n) :
    (getLatestBlockNumber env stScenario9).result = some n ∧
    (getLatestBlockNumber env stScenario9).state.currentRpcIndex = 1 ∧
    (getLatestBlockNumber env stScenario9).state.w3 = some "B" ∧
    (getLatestBlockNumber env
      (getLatestBlockNumber env stScenario9).state).called = ["B"] ∧
    (getLatestBlockNumber env
      (getLatestBlockNumber env stScenario9).state).probed = [] ∧
    (getLatestBlockNumber env
      (getLatestBlockNumber env stScenario9).state).result = some n := by
  have hfc : firstConnected env ["A", "B", "C"] (rotation 3 0) = some 1 := by
    rw [show rotation 3 0 = [0, 1, 2] from rfl]
    simp [firstConnected, hA, hB]
  have htr : triedEndpoints env ["A", "B", "C"] (rotation 3 0) = [0, 1] := by
    rw [show rotation 3 0 = [0, 1, 2] from rfl]
    simp [triedEndpoints, hA, hB]
  have hconn : connectToRpc env (⟨["A", "B", "C"], 0, some "A", none⟩ : ClientState)
      = (some ⟨["A", "B", "C"], 1, some "B", none⟩, [0, 1]) := by
    simp only [connectToRpc, List.length_cons, List.length_nil]
    rw [show (0 : Nat) + 1 + 1 + 1 = 3 from rfl, hfc, htr]
    rfl
  have e1 : getLatestBlockNumber env stScenario9
      = ⟨some n, ⟨["A", "B", "C"], 1, some "B", none⟩, [0, 1], ["A", "B"]⟩ := by
    show getLatestBlockNumber env (⟨["A", "B", "C"], 0, some "A", none⟩ : ClientState) = _
    simp only [getLatestBlockNumber, blockNumberOn, hAb, hconn, hBn]
  have e2 : getLatestBlockNumber env (⟨["A", "B", "C"], 1, some "B", none⟩ : ClientState)
      = ⟨some n, ⟨["A", "B", "C"], 1, some "B", none⟩, [], ["B"]⟩ := by
    simp only [getLatestBlockNumber, blockNumberOn, hBn]
  rw [e1]
  refine ⟨rfl, rfl, rfl, ?_, ?_, ?_⟩ <;> simp only [e2]

/-- C9 witness: the sticky-failover scenario instantiated on a concrete
environment where only "B" is live, answering 42. -/
theorem c9_witness :
    (getLatestBlockNumber envBLive stScenario9).result = some 42 ∧
    (getLatestBlockNumber envBLive stScenario9).state.currentRpcIndex = 1 ∧
    (getLatestBlockNumber envBLive
      (getLatestBlockNumber envBLive stScenario9).state).called = ["B"] := by
  have h := c9_failover_advances_and_sticks envBLive 42 rfl rfl rfl rfl
  exact ⟨h.1, h.2.1, h.2.2.2.1⟩

/-! ### Lemmas about the sentiment bounds -/

theorem foldl_max_le {b : Rat} :
    ∀ {l : List Rat} {a : Rat}, a ≤ b → (∀ x ∈ l, x ≤ b) → l.foldl max a ≤ b := by
  intro l
  induction l with
  | nil => intro a ha _; simpa using ha
  | cons x t ih =>
    intro a ha hall
    rw [List.foldl_cons]
    exact ih (max_le ha (hall x (List.mem_cons_self x t)))
      (fun y hy => hall y (List.mem_cons_of_mem x hy))

theorem le_foldl_max : ∀ (l : List Rat) (a : Rat), a ≤ l.foldl max a := by
  intro l
  induction l with
  | nil => intro a; simp
  | cons x t ih =>
    intro a
    rw [List.foldl_cons]
    exact le_trans (le_max_left a x) (ih (max a x))

theorem getD_unit_interval :
    ∀ (l : List Rat), (∀ p ∈ l, 0 ≤ p ∧ p ≤ 1) → ∀ (d : Rat), 0 ≤ d ∧ d ≤ 1 →
      ∀ n, 0 ≤ l.getD n d ∧ l.getD n d ≤ 1 := by
  intro l
  induction l with
  | nil => intro _ d hd n; simpa [List.getD] using hd
  | cons x t ih =>
    intro hl d hd n
    cases n with
    | zero => simpa [List.getD_cons_zero] using hl x (List.mem_cons_self x t)
    | succ k =>
      rw [List.getD_cons_succ]
      exact ih (fun p hp => hl p (List.mem_cons_of_mem x hp)) d hd k

theorem posScore_bounds (k : Nat) :
    -1 ≤ min (8/10 : Rat) (3/10 + (k : Rat) * (1/10)) ∧
      min (8/10 : Rat) (3/10 + (k : Rat) * (1/10)) ≤ 1 := by
  have hk : (0 : Rat) ≤ (k : Rat) := Nat.cast_nonneg k
  constructor
  · refine le_min (by norm_num) ?_
    linarith
  · exact le_trans (min_le_left _ _) (by norm_num)

theorem negScore_bounds (k : Nat) :
    -1 ≤ max (-(8/10 : Rat)) (-(3/10) - (k : Rat) * (1/10)) ∧
      max (-(8/10 : Rat)) (-(3/10) - (k : Rat) * (1/10)) ≤ 1 := by
  have hk : (0 : Rat) ≤ (k : Rat) := Nat.cast_nonneg k
  constructor
  · exact le_trans (by norm_num) (le_max_left _ _)
  · refine max_le (by norm_num) ?_
    linarith

theorem simpleSentiment_bounds (text : String) :
    -1 ≤ (simpleSentimentAnalysis text).1 ∧ (simpleSentimentAnalysis text).1 ≤ 1 ∧
      0 ≤ (simpleSentimentAnalysis text).2 ∧ (simpleSentimentAnalysis text).2 ≤ 1 := by
  simp only [simpleSentimentAnalysis]
  split_ifs with h1 h2
  · exact ⟨(posScore_bounds _).1, (posScore_bounds _).2, by norm_num, by norm_num⟩
  · exact ⟨(negScore_bounds _).1, (negScore_bounds _).2, by norm_num, by norm_num⟩
  · exact ⟨by norm_num, by norm_num, by norm_num, by norm_num⟩

theorem modelScoreConf_bounds (o : DpOut)
    (hp : ∀ p ∈ extractProbs o, 0 ≤ p ∧ p ≤ 1) :
    -1 ≤ (modelScoreConf o).1 ∧ (modelScoreConf o).1 ≤ 1 ∧
      0 ≤ (modelScoreConf o).2 ∧ (modelScoreConf o).2 ≤ 1 := by
  have hscore : -1 ≤ (modelScoreConf o).1 ∧ (modelScoreConf o).1 ≤ 1 := by
    simp only [modelScoreConf]
    split_ifs with hl1 hl2
    · -- positive label: probs.headD (1/2)
      cases hpr : extractProbs o with
      | nil => simp [List.headD_nil]; norm_num
      | cons p rest =>
        have hb := hp p (by rw [hpr]; exact List.mem_cons_self p rest)
        simp only [hpr, List.headD_cons]
        constructor <;> linarith [hb.1, hb.2]
    · -- negative label: -(probs.getD 1 (1/2))
      have hb := getD_unit_interval (extractProbs o) hp (1/2) (by norm_num) 1
      constructor <;> linarith [hb.1, hb.2]
    · norm_num
  have hconf : 0 ≤ (modelScoreConf o).2 ∧ (modelScoreConf o).2 ≤ 1 := by
    simp only [modelScoreConf]
    cases hpr : extractProbs o with
    | nil => simp [maxProbs]; norm_num
    | cons p rest =>
      have hb := hp p (by rw [hpr]; exact List.mem_cons_self p rest)
      have hle : rest.foldl max p ≤ 1 := by
        refine foldl_max_le hb.2 ?_
        intro x hx
        exact (hp x (by rw [hpr]; exact List.mem_cons_of_mem p hx)).2
      have hge : (0 : Rat) ≤ rest.foldl max p := le_trans hb.1 (le_foldl_max rest p)
      simp only [maxProbs, Option.getD_some]
      exact ⟨hge, hle⟩
  exact ⟨hscore.1, hscore.2, hconf.1, hconf.2⟩

/-! ### Claim C10 -/

/-- C10: `analyze_text` returns exactly `(0.0, 0.0)` on empty or
whitespace-only input, via the early-return branch that invokes neither
the DeepPavlov model nor the rule-based fallback; on every other input the
returned pair — coming from the model branch (assuming the external model
yields a classification whose probabilities lie in `[0, 1]` and a
non-empty result) or from `_simple_sentiment_analysis` — has polarity in
`[-1, 1]` and confidence in `[0, 1]`. -/
theorem c10_analyzeText_blank_and_bounds (model : Option (String → Option DpOut))
    (text : String) :
    (isBlank text = true → analyzeText model text = (some (0, 0), SentPath.empty)) ∧
    (isBlank text = false →
      (∀ m out, model = some m → m text = some out →
        ∀ p ∈ extractProbs out, 0 ≤ p ∧ p ≤ 1) →
      (∀ m, model = some m → (m text).isSome = true) →
      ∃ sc cf, (analyzeText model text).1 = some (sc, cf) ∧
        -1 ≤ sc ∧ sc ≤ 1 ∧ 0 ≤ cf ∧ cf ≤ 1) := by
  constructor
  · intro hb
    unfold analyzeText
    rw [if_pos hb]
  · intro hb hp hsome
    unfold analyzeText
    rw [if_neg (by simp [hb])]
    cases model with
    | none =>
      obtain ⟨h1, h2, h3, h4⟩ := simpleSentiment_bounds text
      exact ⟨(simpleSentimentAnalysis text).1, (simpleSentimentAnalysis text).2,
        by simp, h1, h2, h3, h4⟩
    | some m =>
      cases hmt : m text with
      | none => exact absurd (hsome m rfl) (by simp [hmt])
      | some out =>
        obtain ⟨h1, h2, h3, h4⟩ := modelScoreConf_bounds out (hp m out rfl hmt)
        exact ⟨(modelScoreConf out).1, (modelScoreConf out).2,
          by simp [hmt], h1, h2, h3, h4⟩

/-- C10 witness: the blank early return on `"   "` and the fallback bounds
on `"good"` (no model loaded). -/
theorem c10_witness :
    analyzeText none "   " = (some (0, 0), SentPath.empty) ∧
    (∃ sc cf, (analyzeText none "good").1 = some (sc, cf) ∧
      -1 ≤ sc ∧ sc ≤ 1 ∧ 0 ≤ cf ∧ cf ≤ 1) := by
  constructor
  · exact (c10_analyzeText_blank_and_bounds none "   ").1 (by decide)
  · exact (c10_analyzeText_blank_and_bounds none "good").2 (by decide)
      (by intro m out hm; simp at hm) (by intro m hm; simp at hm)

end Snip727

